import Mathlib

/-!
Verification of the order-lifecycle subsystem of the krishoker_ponno
backend (order controller: createOrder, getMyOrders, getOrder,
updateOrderStatus, assignAgent).

Modelling conventions:
* Entity ids are UUID strings in the source; they are modelled as `Nat`.
  JS truthiness of an optional id (`if (agent_id)`) is modelled as
  `Option.isSome`, since a present UUID string is always truthy.
* Monetary amounts and quantities are JS numbers; arithmetic on them is
  modelled over `ℚ`.
* Roles are loose strings in the source (and in its database schema), so
  `role` is a `String` here; the controller's `switch`/comparisons are
  translated verbatim.
* The external Supabase store is modelled as an in-memory `Store` record;
  each single-row query (`.eq(...).single()`) becomes a `List.find?` with
  the same column conditions, and each `.update(...).eq('id', x)` becomes
  a `List.map` replacing the matching row.  Fallibility of the two writes
  performed by `createOrder` is modelled by the `insertOk`/`updateOk`
  flags (the store may reject a write).
* Rows are assumed to satisfy the database's foreign-key constraints
  where the source blindly dereferences an embedded row
  (`order.product.farmer_id`); a dangling reference would crash the
  source with a TypeError, and here makes the corresponding boolean
  check false (`Option` comparison) or yields `internalError`.
-/

namespace Krishoker

/-- Order status values of the order lifecycle state machine
(`'booked' | 'confirmed' | 'picked' | 'delivered' | 'cancelled'`). -/
inductive OrderStatus
  | booked
  | confirmed
  | picked
  | delivered
  | cancelled
deriving DecidableEq, Repr

/-- A row of the `users` table, restricted to the columns the order
controller reads. -/
structure User where
  id : Nat
  role : String
  district_id : Option Nat
  is_active : Bool
deriving DecidableEq, Repr

/-- A row of the `products` table, restricted to the columns the order
controller reads. -/
structure Product where
  id : Nat
  farmer_id : Nat
  district_id : Option Nat
  price : ℚ
  available_quantity : ℚ
  is_active : Bool
deriving DecidableEq, Repr

/-- A row of the `orders` table. -/
structure Order where
  id : Nat
  product_id : Nat
  customer_id : Nat
  agent_id : Option Nat
  quantity : ℚ
  unit_price : ℚ
  total_price : ℚ
  commission : ℚ
  commission_rate : ℚ
  status : OrderStatus
  delivery_address : String
  customer_notes : String
  agent_notes : Option String
deriving DecidableEq, Repr

/-- The relational store the controller talks to. -/
structure Store where
  users : List User
  products : List Product
  orders : List Order
deriving DecidableEq, Repr

/-- The error taxonomy of the order controller: one constructor per
`AppError` code thrown in the source. -/
inductive OrderErr
  | insufficientPermissions
  | productNotFound
  | insufficientQuantity
  | agentNotFound
  | agentDistrictMismatch
  | orderNotFound
  | orderCreateFailed
  | updateFailed
  | accessDenied
  | invalidRole
  | invalidStatusTransition (cur target : OrderStatus)
  | internalError
deriving DecidableEq, Repr

/-- `from('products').select(...).eq('id', pid).eq('is_active', true).single()` -/
def findActiveProduct (s : Store) (pid : Nat) : Option Product :=
  s.products.find? fun p => p.id == pid && p.is_active

/-- `from('users').select('*').eq('id', aid).eq('role', 'agent').eq('is_active', true).single()` -/
def findActiveAgent (s : Store) (aid : Nat) : Option User :=
  s.users.find? fun u => u.id == aid && u.role == "agent" && u.is_active

/-- `from('orders').select(...).eq('id', oid).single()` -/
def findOrder (s : Store) (oid : Nat) : Option Order :=
  s.orders.find? fun o => o.id == oid

/-- Resolution of the embedded `product:products(...)` row of an order. -/
def productOf (s : Store) (o : Order) : Option Product :=
  s.products.find? fun p => p.id == o.product_id

/-- `from('products').update(\x7b available_quantity: q \x7d).eq('id', pid)` -/
def setProductQuantity (s : Store) (pid : Nat) (q : ℚ) : Store :=
  { s with
      products := s.products.map fun p =>
        if p.id == pid then { p with available_quantity := q } else p }

/-- A later `from('products').update(\x7b price: np \x7d).eq('id', pid)` by some
other endpoint, used to express price-snapshot semantics. -/
def setProductPrice (s : Store) (pid : Nat) (np : ℚ) : Store :=
  { s with
      products := s.products.map fun p =>
        if p.id == pid then { p with price := np } else p }

/-- Replacement of an order row: `from('orders').update(...).eq('id', oid)`. -/
def replaceOrder (s : Store) (oid : Nat) (o : Order) : Store :=
  { s with orders := s.orders.map fun r => if r.id == oid then o else r }

/-- Shallow embedding of `createOrder` (order controller, lines 7–110).
Arguments mirror `req.user` and the request body; `newId` is the id the
store assigns to the inserted row; `insertOk` / `updateOk` say whether
the store accepts the order insert and the follow-up product-quantity
update.  When the second write fails the source only logs the error and
still responds 201 with the created order. -/
def createOrder (s : Store) (user : User) (product_id : Nat) (quantity : ℚ)
    (agent_id : Option Nat) (delivery_address customer_notes : String)
    (newId : Nat) (insertOk updateOk : Bool) :
    Except OrderErr Order × Store :=
  if user.role != "customer" && user.role != "admin" then
    (.error .insufficientPermissions, s)
  else
    match findActiveProduct s product_id with
    | none => (.error .productNotFound, s)
    | some product =>
      if product.available_quantity < quantity then
        (.error .insufficientQuantity, s)
      else
        let agentCheck : Except OrderErr Unit :=
          match agent_id with
          | none => .ok ()
          | some aid =>
            match findActiveAgent s aid with
            | none => .error .agentNotFound
            | some agent =>
              if agent.district_id != product.district_id then
                .error .agentDistrictMismatch
              else .ok ()
        match agentCheck with
        | .error e => (.error e, s)
        | .ok _ =>
          let unit_price := product.price
          let total_price := unit_price * quantity
          let commission_rate : ℚ := 5
          let commission : ℚ :=
            if agent_id.isSome then total_price * commission_rate / 100 else 0
          let order : Order :=
            { id := newId
              product_id := product_id
              customer_id := user.id
              agent_id := agent_id
              quantity := quantity
              unit_price := unit_price
              total_price := total_price
              commission := commission
              commission_rate := commission_rate
              status := .booked
              delivery_address := delivery_address
              customer_notes := customer_notes
              agent_notes := none }
          if insertOk then
            let s1 : Store := { s with orders := s.orders ++ [order] }
            let s2 : Store :=
              if updateOk then
                setProductQuantity s1 product_id
                  (product.available_quantity - quantity)
              else s1
            (.ok order, s2)
          else (.error .orderCreateFailed, s)

/-- The `validTransitions` adjacency table of `updateOrderStatus`,
verbatim from the source: `delivered` and `cancelled` are final states. -/
def validTransitions : OrderStatus → List OrderStatus
  | .booked => [.confirmed, .cancelled]
  | .confirmed => [.picked, .cancelled]
  | .picked => [.delivered, .cancelled]
  | .delivered => []
  | .cancelled => []

/-- The `canUpdate` authorization expression of `updateOrderStatus`:
admin, or the agent assigned to the order, or the farmer owning the
order's product. -/
def canUpdateOrder (s : Store) (user : User) (o : Order) : Bool :=
  user.role == "admin" ||
  (user.role == "agent" && o.agent_id == some user.id) ||
  (user.role == "farmer" && (productOf s o).map Product.farmer_id == some user.id)

/-- Shallow embedding of `updateOrderStatus` (order controller, lines
232–298).  `agent_notes = none` models an absent body field; the source
guards the notes update with JS truthiness, so an empty string is also
not written. -/
def updateOrderStatus (s : Store) (user : User) (orderId : Nat)
    (status : OrderStatus) (agent_notes : Option String) :
    Except OrderErr Order × Store :=
  match findOrder s orderId with
  | none => (.error .orderNotFound, s)
  | some existingOrder =>
    if !canUpdateOrder s user existingOrder then
      (.error .insufficientPermissions, s)
    else if !(validTransitions existingOrder.status).contains status then
      (.error (.invalidStatusTransition existingOrder.status status), s)
    else
      let newNotes : Option String :=
        match agent_notes with
        | some n => if n == "" then existingOrder.agent_notes else some n
        | none => existingOrder.agent_notes
      let order : Order :=
        { existingOrder with status := status, agent_notes := newNotes }
      (.ok order, replaceOrder s orderId order)

/-- The `hasAccess` expression of `getOrder`: admin, or the order's
customer, or its agent, or the farmer of its product. -/
def hasOrderAccess (s : Store) (user : User) (o : Order) : Bool :=
  user.role == "admin" ||
  o.customer_id == user.id ||
  o.agent_id == some user.id ||
  (productOf s o).map Product.farmer_id == some user.id

/-- Shallow embedding of `getOrder` (order controller, lines 193–227);
a pure read, so no store is returned. -/
def getOrder (s : Store) (user : User) (orderId : Nat) :
    Except OrderErr Order :=
  match findOrder s orderId with
  | none => .error .orderNotFound
  | some order =>
    if hasOrderAccess s user order then .ok order
    else .error .accessDenied

/-- Shallow embedding of `getMyOrders` (order controller, lines
115–188): the role-based base filter (the `switch` on `user.role`),
then the optional status filter.  Sorting and pagination are applied by
the external store after these filters and only reorder or window the
already-filtered rows; they are not modelled, as membership of a row in
the unwindowed result is what the visibility rules govern.

The customer and agent cases filter on top-level order columns
(`customer_id`, `agent_id`).  The farmer case is the source's
`query.eq('product.farmer_id', user.id)`, where `product` is a
PostgREST embedded resource selected without the `!inner` modifier: a
filter on a non-`!inner` embed restricts only the embedded product rows
and never removes top-level order rows, so every order is returned
(orders on other farmers' products merely carry a null `product` embed,
which is not modelled here since row membership is what visibility
governs). -/
def getMyOrders (s : Store) (user : User)
    (statusFilter : Option OrderStatus) :
    Except OrderErr (List Order) :=
  let roleFiltered : Except OrderErr (List Order) :=
    if user.role == "customer" then
      .ok (s.orders.filter fun o => o.customer_id == user.id)
    else if user.role == "agent" then
      .ok (s.orders.filter fun o => o.agent_id == some user.id)
    else if user.role == "farmer" then
      .ok s.orders
    else if user.role == "admin" then
      .ok s.orders
    else
      .error .invalidRole
  match roleFiltered with
  | .error e => .error e
  | .ok rows =>
    match statusFilter with
    | some st => .ok (rows.filter fun o => o.status == st)
    | none => .ok rows

/-- Shallow embedding of `assignAgent` (order controller, lines
303–377).  The source dereferences `existingOrder.product.district_id`
without a null check; a dangling product reference would crash it, which
is modelled as `internalError`. -/
def assignAgent (s : Store) (user : User) (orderId agent_id : Nat) :
    Except OrderErr Order × Store :=
  if user.role != "customer" && user.role != "admin" then
    (.error .insufficientPermissions, s)
  else
    match findOrder s orderId with
    | none => (.error .orderNotFound, s)
    | some existingOrder =>
      if user.role == "customer" && existingOrder.customer_id != user.id then
        (.error .accessDenied, s)
      else
        match findActiveAgent s agent_id with
        | none => (.error .agentNotFound, s)
        | some agent =>
          match productOf s existingOrder with
          | none => (.error .internalError, s)
          | some product =>
            if agent.district_id != product.district_id then
              (.error .agentDistrictMismatch, s)
            else
              let commission_rate : ℚ := 5
              let commission : ℚ :=
                existingOrder.total_price * commission_rate / 100
              let order : Order :=
                { existingOrder with
                    agent_id := some agent_id
                    commission := commission
                    commission_rate := commission_rate }
              (.ok order, replaceOrder s orderId order)

/-! Sample rows, following the end-to-end scenario of the specification:
product of price 50 and stock 10 in district 1, owned by farmer 4;
customer 1 and agent 3 in district 1, agent 5 in district 2, admin 2. -/

/-- Sample customer (district 1). -/
def sampleCustomer : User :=
  { id := 1, role := "customer", district_id := some 1, is_active := true }

/-- Sample admin. -/
def sampleAdmin : User :=
  { id := 2, role := "admin", district_id := none, is_active := true }

/-- Sample agent in district 1. -/
def sampleAgent : User :=
  { id := 3, role := "agent", district_id := some 1, is_active := true }

/-- Sample farmer (district 1), owner of the sample product. -/
def sampleFarmer : User :=
  { id := 4, role := "farmer", district_id := some 1, is_active := true }

/-- Sample agent in district 2. -/
def sampleAgentD2 : User :=
  { id := 5, role := "agent", district_id := some 2, is_active := true }

/-- Sample product: price 50, stock 10, district 1, owned by farmer 4. -/
def sampleProduct : Product :=
  { id := 10, farmer_id := 4, district_id := some 1, price := 50,
    available_quantity := 10, is_active := true }

/-- A pre-existing sample order on the sample product: customer 1,
agent 3, quantity 3 at unit price 50. -/
def sampleOrder : Order :=
  { id := 100, product_id := 10, customer_id := 1, agent_id := some 3,
    quantity := 3, unit_price := 50, total_price := 50 * 3,
    commission := 50 * 3 * 5 / 100, commission_rate := 5, status := .booked,
    delivery_address := "Dhaka", customer_notes := "",
    agent_notes := none }

/-- Sample store holding the rows above. -/
def sampleStore : Store :=
  { users := [sampleCustomer, sampleAdmin, sampleAgent, sampleFarmer,
              sampleAgentD2],
    products := [sampleProduct],
    orders := [sampleOrder] }

/-- The order returned by a `createOrder` call does not depend on the
outcome of the follow-up product-quantity write. -/
lemma createOrder_fst_irrel (s : Store) (user : User) (pid : Nat) (q : ℚ)
    (aid : Option Nat) (da cn : String) (newId : Nat) (iOk a b : Bool) :
    (createOrder s user pid q aid da cn newId iOk a).1 =
      (createOrder s user pid q aid da cn newId iOk b).1 := by
  simp only [createOrder]
  repeat' split
  all_goals rfl

/-- C1: a successful `createOrder` with product `P`, quantity `q` and
optional agent snapshots `unit_price` from `P.price` at call time (later
price updates leave the stored order untouched), sets
`total_price = unit_price * q`, `commission_rate = 5`,
`commission = total_price * 5 / 100` iff an agent id was given (else 0),
`status = booked`, appends the order to the store, and decrements the
product's `available_quantity` by exactly `q` in a separate second
write: when that write fails the products are unchanged yet the call
still returns the created order (logged only, never surfaced or rolled
back). -/
theorem createOrder_success_spec (s : Store) (user : User) (pid : Nat)
    (q : ℚ) (aid : Option Nat) (da cn : String) (newId : Nat)
    (insertOk updateOk : Bool) (p : Product) (o : Order) (s' : Store)
    (hp : findActiveProduct s pid = some p)
    (h : createOrder s user pid q aid da cn newId insertOk updateOk =
          (.ok o, s')) :
    o.unit_price = p.price ∧
    o.total_price = o.unit_price * q ∧
    o.commission_rate = 5 ∧
    o.commission = (if aid.isSome then o.total_price * 5 / 100 else 0) ∧
    o.status = .booked ∧
    s'.orders = s.orders ++ [o] ∧
    (updateOk = true →
      s'.products =
        (setProductQuantity s pid (p.available_quantity - q)).products) ∧
    (updateOk = false → s'.products = s.products) ∧
    (∀ uOk, (createOrder s user pid q aid da cn newId insertOk uOk).1 =
      .ok o) ∧
    (∀ np, (setProductPrice s' pid np).orders = s'.orders) := by
  have hirr := createOrder_fst_irrel s user pid q aid da cn newId insertOk
  have hfst : (createOrder s user pid q aid da cn newId insertOk updateOk).1 =
      .ok o := by rw [h]
  simp only [createOrder, hp] at h
  split at h
  · simp at h
  · split at h
    · simp at h
    · split at h
      · simp at h
      · split at h
        · simp only [Prod.mk.injEq, Except.ok.injEq] at h
          obtain ⟨h1, h2⟩ := h
          subst h1
          subst h2
          refine ⟨rfl, rfl, rfl, rfl, rfl, ?_, ?_, ?_, ?_, ?_⟩
          · cases updateOk <;> rfl
          · intro hu; subst hu; rfl
          · intro hu; subst hu; rfl
          · intro uOk
            exact (hirr uOk updateOk).trans hfst
          · intro np; rfl
        · simp at h

/-- The order produced by the sample `createOrder` call (customer 1
buys 3 units of product 10 with agent 3). -/
def sampleCreatedOrder : Order :=
  { id := 101, product_id := 10, customer_id := 1, agent_id := some 3,
    quantity := 3, unit_price := 50, total_price := 50 * 3,
    commission := 50 * 3 * 5 / 100, commission_rate := 5, status := .booked,
    delivery_address := "Dhaka", customer_notes := "",
    agent_notes := none }

/-- The store after the sample `createOrder` call: order appended,
stock decremented from 10 to 7. -/
def sampleStoreAfterCreate : Store :=
  { users := sampleStore.users,
    products := [{ sampleProduct with available_quantity := 10 - 3 }],
    orders := [sampleOrder, sampleCreatedOrder] }

/-- Witness for C1 at the sample scenario. -/
theorem createOrder_success_spec_witness :
    sampleCreatedOrder.unit_price = sampleProduct.price ∧
    sampleCreatedOrder.total_price = sampleCreatedOrder.unit_price * 3 ∧
    sampleCreatedOrder.commission_rate = 5 ∧
    sampleCreatedOrder.commission =
      (if (some 3 : Option Nat).isSome then
        sampleCreatedOrder.total_price * 5 / 100 else 0) ∧
    sampleCreatedOrder.status = .booked ∧
    sampleStoreAfterCreate.orders = sampleStore.orders ++ [sampleCreatedOrder] ∧
    (true = true →
      sampleStoreAfterCreate.products =
        (setProductQuantity sampleStore 10
          (sampleProduct.available_quantity - 3)).products) ∧
    (true = false → sampleStoreAfterCreate.products = sampleStore.products) ∧
    (∀ uOk, (createOrder sampleStore sampleCustomer 10 3 (some 3) "Dhaka" ""
        101 true uOk).1 = .ok sampleCreatedOrder) ∧
    (∀ np, (setProductPrice sampleStoreAfterCreate 10 np).orders =
      sampleStoreAfterCreate.orders) :=
  createOrder_success_spec sampleStore sampleCustomer 10 3 (some 3) "Dhaka"
    "" 101 true true sampleProduct sampleCreatedOrder sampleStoreAfterCreate
    (by rfl) (by rfl)

/-- C2: for an order with current status `s` and an authorized caller,
`updateOrderStatus` succeeds iff the requested target is in the
adjacency set of `s`, where the adjacency sets are
booked → confirmed or cancelled, confirmed → picked or cancelled,
picked → delivered or cancelled, and delivered and cancelled are
terminal; every attempt from a terminal state fails with the
invalid-transition error. -/
theorem updateOrderStatus_transition_spec (s : Store) (user : User)
    (oid : Nat) (t : OrderStatus) (an : Option String) (o : Order)
    (ho : findOrder s oid = some o)
    (hauth : canUpdateOrder s user o = true) :
    validTransitions .booked = [.confirmed, .cancelled] ∧
    validTransitions .confirmed = [.picked, .cancelled] ∧
    validTransitions .picked = [.delivered, .cancelled] ∧
    validTransitions .delivered = [] ∧
    validTransitions .cancelled = [] ∧
    ((∃ o' s', updateOrderStatus s user oid t an = (.ok o', s')) ↔
      t ∈ validTransitions o.status) ∧
    ((o.status = .delivered ∨ o.status = .cancelled) →
      updateOrderStatus s user oid t an =
        (.error (.invalidStatusTransition o.status t), s)) := by
  refine ⟨rfl, rfl, rfl, rfl, rfl, ?_, ?_⟩
  · constructor
    · rintro ⟨o', s', h⟩
      simp only [updateOrderStatus, ho, hauth, Bool.not_true,
        Bool.false_eq_true, if_false] at h
      split at h
      · simp at h
      · next hc =>
        simp only [Bool.not_eq_true', Bool.not_eq_false] at hc
        simpa using hc
    · intro hmem
      have hc : (validTransitions o.status).contains t = true := by
        simpa using hmem
      simp only [updateOrderStatus, ho, hauth, hc, Bool.not_true,
        Bool.false_eq_true, if_false]
      exact ⟨_, _, rfl⟩
  · intro hterm
    have hc : (validTransitions o.status).contains t = false := by
      rcases hterm with h1 | h1 <;> rw [h1] <;> rfl
    simp only [updateOrderStatus, ho, hauth, Bool.not_true,
      Bool.false_eq_true, if_false, hc, Bool.not_false, if_true]

/-- Witness for C2: agent 3 updating the sample booked order. -/
theorem updateOrderStatus_transition_spec_witness :
    validTransitions .booked = [.confirmed, .cancelled] ∧
    validTransitions .confirmed = [.picked, .cancelled] ∧
    validTransitions .picked = [.delivered, .cancelled] ∧
    validTransitions .delivered = [] ∧
    validTransitions .cancelled = [] ∧
    ((∃ o' s', updateOrderStatus sampleStore sampleAgent 100 .confirmed none
        = (.ok o', s')) ↔
      OrderStatus.confirmed ∈ validTransitions sampleOrder.status) ∧
    ((sampleOrder.status = .delivered ∨ sampleOrder.status = .cancelled) →
      updateOrderStatus sampleStore sampleAgent 100 .confirmed none =
        (.error (.invalidStatusTransition sampleOrder.status .confirmed),
          sampleStore)) :=
  updateOrderStatus_transition_spec sampleStore sampleAgent 100 .confirmed
    none sampleOrder (by rfl) (by rfl)

/-- A second farmer (id 6), owning no products, used to exhibit the
farmer-visibility leak of `getMyOrders`. -/
def sampleFarmerB : User :=
  { id := 6, role := "farmer", district_id := some 1, is_active := true }

/-- The sample store with farmer 6 added: its only order (100) is on
product 10, which belongs to farmer 4. -/
def sampleStoreC : Store :=
  { users := sampleStore.users ++ [sampleFarmerB],
    products := [sampleProduct],
    orders := [sampleOrder] }

/-- C3: the visibility claim fails on the code for the farmer role.
The source filters farmers' orders with `.eq('product.farmer_id', id)`
on a non-`!inner` PostgREST embed, which does not restrict the
top-level order rows, so a farmer receives every order: here farmer 6
receives order 100 although its product belongs to farmer 4 — an
unauthorized row in the list, contradicting the claimed iff and the
no-leak property.  (Customer, agent and admin branches do satisfy their
conditions; the invalid-role rejection also matches.) -/
theorem getMyOrders_farmer_leak :
    getMyOrders sampleStoreC sampleFarmerB none = .ok [sampleOrder] ∧
    (productOf sampleStoreC sampleOrder).map Product.farmer_id =
      some sampleFarmer.id ∧
    sampleFarmerB.id = 6 ∧
    ¬((productOf sampleStoreC sampleOrder).map Product.farmer_id =
        some sampleFarmerB.id) :=
  ⟨rfl, rfl, rfl, by decide⟩

/-- C4: for an existing order and an authorized caller (the order's
customer or an admin), `assignAgent` succeeds iff the agent exists with
role agent, is active, and is in the product's district; on success it
sets `agent_id` (overwriting any prior agent), `commission_rate = 5`
and `commission = total_price * 5 / 100`, leaving the status unchanged
— with no restriction on the order's current status. -/
theorem assignAgent_spec (s : Store) (user : User) (oid aid : Nat)
    (o : Order) (p : Product)
    (ho : findOrder s oid = some o)
    (hp : productOf s o = some p)
    (hauth : user.role = "admin" ∨
      (user.role = "customer" ∧ o.customer_id = user.id)) :
    ((∃ o' s', assignAgent s user oid aid = (.ok o', s')) ↔
      (∃ agent, findActiveAgent s aid = some agent ∧
        agent.district_id = p.district_id)) ∧
    (∀ o' s', assignAgent s user oid aid = (.ok o', s') →
      o'.agent_id = some aid ∧
      o'.commission_rate = 5 ∧
      o'.commission = o.total_price * 5 / 100 ∧
      o'.status = o.status ∧
      s' = replaceOrder s oid o') := by
  have hrole : (user.role != "customer" && user.role != "admin") = false := by
    rcases hauth with h | ⟨h, _⟩ <;> simp [h]
  have hown : (user.role == "customer" && o.customer_id != user.id) = false := by
    rcases hauth with h | ⟨h, h2⟩
    · simp [h]
    · simp [h, h2]
  constructor
  · constructor
    · rintro ⟨o', s', h⟩
      simp only [assignAgent, hrole, ho, hown, hp, Bool.false_eq_true,
        if_false] at h
      split at h
      · simp at h
      · next agent hagent =>
        split at h
        · simp at h
        · next hdist =>
          have hdist2 : agent.district_id = p.district_id := by
            simpa using hdist
          exact ⟨agent, hagent, hdist2⟩
    · rintro ⟨agent, hagent, hdist⟩
      have hd : (agent.district_id != p.district_id) = false := by
        simp [hdist]
      simp only [assignAgent, hrole, ho, hown, hagent, hp,
        Bool.false_eq_true, if_false, hd]
      exact ⟨_, _, rfl⟩
  · intro o' s' h
    simp only [assignAgent, hrole, ho, hown, hp, Bool.false_eq_true,
      if_false] at h
    split at h
    · simp at h
    · split at h
      · simp at h
      · simp only [Prod.mk.injEq, Except.ok.injEq] at h
        obtain ⟨h1, h2⟩ := h
        subst h1
        subst h2
        exact ⟨rfl, rfl, rfl, rfl, rfl⟩

/-- A delivered order used to exhibit agent assignment after delivery. -/
def sampleDeliveredOrder : Order :=
  { id := 102, product_id := 10, customer_id := 1, agent_id := some 3,
    quantity := 2, unit_price := 50, total_price := 50 * 2,
    commission := 50 * 2 * 5 / 100, commission_rate := 5,
    status := .delivered, delivery_address := "Dhaka",
    customer_notes := "", agent_notes := none }

/-- A second sample store whose only order is already delivered. -/
def sampleStoreB : Store :=
  { users := sampleStore.users,
    products := [sampleProduct],
    orders := [sampleDeliveredOrder] }

/-- Witness for C4: customer 1 (re-)assigns agent 3 to the delivered
sample order. -/
theorem assignAgent_spec_witness :
    ((∃ o' s', assignAgent sampleStoreB sampleCustomer 102 3 =
        (.ok o', s')) ↔
      (∃ agent, findActiveAgent sampleStoreB 3 = some agent ∧
        agent.district_id = sampleProduct.district_id)) ∧
    (∀ o' s', assignAgent sampleStoreB sampleCustomer 102 3 =
        (.ok o', s') →
      o'.agent_id = some 3 ∧
      o'.commission_rate = 5 ∧
      o'.commission = sampleDeliveredOrder.total_price * 5 / 100 ∧
      o'.status = sampleDeliveredOrder.status ∧
      s' = replaceOrder sampleStoreB 102 o') :=
  assignAgent_spec sampleStoreB sampleCustomer 102 3 sampleDeliveredOrder
    sampleProduct (by rfl) (by rfl) (Or.inr ⟨rfl, rfl⟩)

/-- C5: `createOrder` validates in a fixed order — caller role
(customer or admin, else 403), then product existence and activity
(else 404), then stock (else 400 insufficient-quantity), then, only
when an agent id was given, agent existence/role/activity (else 404)
and district match (else 400) — and an earlier failure is returned
regardless of the later conditions. -/
theorem createOrder_validation_order (s : Store) (user : User) (pid : Nat)
    (q : ℚ) (aid : Option Nat) (da cn : String) (newId : Nat)
    (iOk uOk : Bool) :
    (¬(user.role = "customer" ∨ user.role = "admin") →
      createOrder s user pid q aid da cn newId iOk uOk =
        (.error .insufficientPermissions, s)) ∧
    ((user.role = "customer" ∨ user.role = "admin") →
      findActiveProduct s pid = none →
      createOrder s user pid q aid da cn newId iOk uOk =
        (.error .productNotFound, s)) ∧
    (∀ p, (user.role = "customer" ∨ user.role = "admin") →
      findActiveProduct s pid = some p →
      p.available_quantity < q →
      createOrder s user pid q aid da cn newId iOk uOk =
        (.error .insufficientQuantity, s)) ∧
    (∀ p a, (user.role = "customer" ∨ user.role = "admin") →
      findActiveProduct s pid = some p →
      ¬p.available_quantity < q →
      aid = some a →
      findActiveAgent s a = none →
      createOrder s user pid q aid da cn newId iOk uOk =
        (.error .agentNotFound, s)) ∧
    (∀ p a agent, (user.role = "customer" ∨ user.role = "admin") →
      findActiveProduct s pid = some p →
      ¬p.available_quantity < q →
      aid = some a →
      findActiveAgent s a = some agent →
      agent.district_id ≠ p.district_id →
      createOrder s user pid q aid da cn newId iOk uOk =
        (.error .agentDistrictMismatch, s)) := by
  refine ⟨?_, ?_, ?_, ?_, ?_⟩
  · intro hr
    rw [not_or] at hr
    have hrole : (user.role != "customer" && user.role != "admin") = true := by
      simp [hr.1, hr.2]
    simp [createOrder, hrole]
  · intro hr hp
    have hrole : (user.role != "customer" && user.role != "admin") = false := by
      rcases hr with h | h <;> simp [h]
    simp [createOrder, hrole, hp]
  · intro p hr hp hq
    have hrole : (user.role != "customer" && user.role != "admin") = false := by
      rcases hr with h | h <;> simp [h]
    simp [createOrder, hrole, hp, hq]
  · intro p a hr hp hq ha hagent
    have hrole : (user.role != "customer" && user.role != "admin") = false := by
      rcases hr with h | h <;> simp [h]
    subst ha
    simp [createOrder, hrole, hp, hq, hagent]
  · intro p a agent hr hp hq ha hagent hdist
    have hrole : (user.role != "customer" && user.role != "admin") = false := by
      rcases hr with h | h <;> simp [h]
    subst ha
    simp [createOrder, hrole, hp, hq, hagent, hdist]

/-- Witness for C5: each validation failure exhibited on the sample
store — farmer caller, missing product 99, quantity 11 over stock 10,
missing agent 99, and agent 5 from the wrong district. -/
theorem createOrder_validation_order_witness :
    createOrder sampleStore sampleFarmer 10 3 none "Dhaka" "" 101 true
        true = (.error .insufficientPermissions, sampleStore) ∧
    createOrder sampleStore sampleCustomer 99 3 none "Dhaka" "" 101 true
        true = (.error .productNotFound, sampleStore) ∧
    createOrder sampleStore sampleCustomer 10 11 none "Dhaka" "" 101 true
        true = (.error .insufficientQuantity, sampleStore) ∧
    createOrder sampleStore sampleCustomer 10 3 (some 99) "Dhaka" "" 101
        true true = (.error .agentNotFound, sampleStore) ∧
    createOrder sampleStore sampleCustomer 10 3 (some 5) "Dhaka" "" 101
        true true = (.error .agentDistrictMismatch, sampleStore) :=
  ⟨(createOrder_validation_order sampleStore sampleFarmer 10 3 none
      "Dhaka" "" 101 true true).1 (by decide),
   (createOrder_validation_order sampleStore sampleCustomer 99 3 none
      "Dhaka" "" 101 true true).2.1 (Or.inl rfl) (by rfl),
   (createOrder_validation_order sampleStore sampleCustomer 10 11 none
      "Dhaka" "" 101 true true).2.2.1 sampleProduct (Or.inl rfl) (by rfl)
      (by decide),
   (createOrder_validation_order sampleStore sampleCustomer 10 3
      (some 99) "Dhaka" "" 101 true true).2.2.2.1 sampleProduct 99
      (Or.inl rfl) (by rfl) (by decide) rfl (by rfl),
   (createOrder_validation_order sampleStore sampleCustomer 10 3 (some 5)
      "Dhaka" "" 101 true true).2.2.2.2 sampleProduct 5 sampleAgentD2
      (Or.inl rfl) (by rfl) (by decide) rfl (by rfl) (by decide)⟩

/-- C6: when the requested quantity exceeds the product's available
quantity at call time, `createOrder` always fails with the
insufficient-quantity error and leaves every part of the store
unchanged: no order is persisted and no write is performed. -/
theorem createOrder_insufficient_stock (s : Store) (user : User)
    (pid : Nat) (q : ℚ) (aid : Option Nat) (da cn : String) (newId : Nat)
    (iOk uOk : Bool) (p : Product)
    (hr : user.role = "customer" ∨ user.role = "admin")
    (hp : findActiveProduct s pid = some p)
    (hq : p.available_quantity < q) :
    createOrder s user pid q aid da cn newId iOk uOk =
      (.error .insufficientQuantity, s) ∧
    (createOrder s user pid q aid da cn newId iOk uOk).2.orders =
      s.orders ∧
    (createOrder s user pid q aid da cn newId iOk uOk).2.products =
      s.products ∧
    (createOrder s user pid q aid da cn newId iOk uOk).2.users =
      s.users := by
  have hrole : (user.role != "customer" && user.role != "admin") = false := by
    rcases hr with h | h <;> simp [h]
  have key : createOrder s user pid q aid da cn newId iOk uOk =
      (.error .insufficientQuantity, s) := by
    simp [createOrder, hrole, hp, hq]
  exact ⟨key, by rw [key], by rw [key], by rw [key]⟩

/-- Witness for C6: ordering 11 units of the sample product (stock
10) is rejected with no store change. -/
theorem createOrder_insufficient_stock_witness :
    createOrder sampleStore sampleCustomer 10 11 (some 3) "Dhaka" "" 104
      true true = (.error .insufficientQuantity, sampleStore) ∧
    (createOrder sampleStore sampleCustomer 10 11 (some 3) "Dhaka" "" 104
      true true).2.orders = sampleStore.orders ∧
    (createOrder sampleStore sampleCustomer 10 11 (some 3) "Dhaka" "" 104
      true true).2.products = sampleStore.products ∧
    (createOrder sampleStore sampleCustomer 10 11 (some 3) "Dhaka" "" 104
      true true).2.users = sampleStore.users :=
  createOrder_insufficient_stock sampleStore sampleCustomer 10 11 (some 3)
    "Dhaka" "" 104 true true sampleProduct (Or.inl rfl) (by rfl)
    (by decide)

/-- C7: `updateOrderStatus` on an existing order rejects, with the 403
insufficient-permissions error and before evaluating the requested
transition, every caller who is not an admin, not the agent assigned to
the order, and not the farmer owning the order's product — in
particular every customer, including the order's own customer. -/
theorem updateOrderStatus_authorization (s : Store) (user : User)
    (oid : Nat) (t : OrderStatus) (an : Option String) (o : Order)
    (ho : findOrder s oid = some o)
    (hnot : ¬(user.role = "admin" ∨
      (user.role = "agent" ∧ o.agent_id = some user.id) ∨
      (user.role = "farmer" ∧
        (productOf s o).map Product.farmer_id = some user.id))) :
    updateOrderStatus s user oid t an =
      (.error .insufficientPermissions, s) := by
  have hca : canUpdateOrder s user o = false := by
    cases hcu : canUpdateOrder s user o
    · rfl
    · exfalso
      apply hnot
      simp only [canUpdateOrder, Bool.or_eq_true, Bool.and_eq_true,
        beq_iff_eq] at hcu
      tauto
  simp [updateOrderStatus, ho, hca]

/-- Witness for C7: the sample order's own customer cannot update its
status. -/
theorem updateOrderStatus_authorization_witness :
    updateOrderStatus sampleStore sampleCustomer 100 .confirmed none =
      (.error .insufficientPermissions, sampleStore) :=
  updateOrderStatus_authorization sampleStore sampleCustomer 100
    .confirmed none sampleOrder (by rfl) (by decide)

/-- C8: `getOrder` on an existing order returns it iff the caller is an
admin, the order's customer, its assigned agent, or the farmer of its
product; every other caller gets the access-denied error. -/
theorem getOrder_access_spec (s : Store) (user : User) (oid : Nat)
    (o : Order) (ho : findOrder s oid = some o) :
    (getOrder s user oid = .ok o ↔
      (user.role = "admin" ∨ o.customer_id = user.id ∨
       o.agent_id = some user.id ∨
       (productOf s o).map Product.farmer_id = some user.id)) ∧
    (¬(user.role = "admin" ∨ o.customer_id = user.id ∨
        o.agent_id = some user.id ∨
        (productOf s o).map Product.farmer_id = some user.id) →
      getOrder s user oid = .error .accessDenied) := by
  have hiff : hasOrderAccess s user o = true ↔
      (user.role = "admin" ∨ o.customer_id = user.id ∨
       o.agent_id = some user.id ∨
       (productOf s o).map Product.farmer_id = some user.id) := by
    simp only [hasOrderAccess, Bool.or_eq_true, beq_iff_eq]
    tauto
  constructor
  · constructor
    · intro h
      simp only [getOrder, ho] at h
      split at h
      · next hacc => exact hiff.mp hacc
      · simp at h
    · intro hdisj
      simp [getOrder, ho, hiff.mpr hdisj]
  · intro hdisj
    have hacc : hasOrderAccess s user o = false := by
      cases hx : hasOrderAccess s user o
      · rfl
      · exact absurd (hiff.mp hx) hdisj
    simp [getOrder, ho, hacc]

/-- Witness for C8: farmer 4 may fetch the sample order because the
ordered product is theirs. -/
theorem getOrder_access_spec_witness :
    (getOrder sampleStore sampleFarmer 100 = .ok sampleOrder ↔
      (sampleFarmer.role = "admin" ∨
       sampleOrder.customer_id = sampleFarmer.id ∨
       sampleOrder.agent_id = some sampleFarmer.id ∨
       (productOf sampleStore sampleOrder).map Product.farmer_id =
         some sampleFarmer.id)) ∧
    (¬(sampleFarmer.role = "admin" ∨
        sampleOrder.customer_id = sampleFarmer.id ∨
        sampleOrder.agent_id = some sampleFarmer.id ∨
        (productOf sampleStore sampleOrder).map Product.farmer_id =
          some sampleFarmer.id) →
      getOrder sampleStore sampleFarmer 100 = .error .accessDenied) :=
  getOrder_access_spec sampleStore sampleFarmer 100 sampleOrder (by rfl)

/-- C9: a successful `updateOrderStatus` changes only the order's
status (to the requested target) and, when agent notes were supplied,
its agent-notes field; every other field is unchanged. -/
theorem updateOrderStatus_frame (s : Store) (user : User) (oid : Nat)
    (t : OrderStatus) (an : Option String) (o o' : Order) (s' : Store)
    (ho : findOrder s oid = some o)
    (h : updateOrderStatus s user oid t an = (.ok o', s')) :
    o'.id = o.id ∧
    o'.product_id = o.product_id ∧
    o'.customer_id = o.customer_id ∧
    o'.agent_id = o.agent_id ∧
    o'.quantity = o.quantity ∧
    o'.unit_price = o.unit_price ∧
    o'.total_price = o.total_price ∧
    o'.commission = o.commission ∧
    o'.commission_rate = o.commission_rate ∧
    o'.delivery_address = o.delivery_address ∧
    o'.customer_notes = o.customer_notes ∧
    o'.status = t ∧
    (o'.agent_notes = o.agent_notes ∨
      ∃ n, an = some n ∧ o'.agent_notes = some n) := by
  simp only [updateOrderStatus, ho] at h
  split at h
  · simp at h
  · split at h
    · simp at h
    · simp only [Prod.mk.injEq, Except.ok.injEq] at h
      obtain ⟨h1, h2⟩ := h
      subst h1
      refine ⟨rfl, rfl, rfl, rfl, rfl, rfl, rfl, rfl, rfl, rfl, rfl, rfl,
        ?_⟩
      rcases an with _ | n
      · exact Or.inl rfl
      · by_cases hn : (n == "") = true
        · exact Or.inl (by simp [hn])
        · exact Or.inr ⟨n, rfl, by simp [hn]⟩

/-- The sample order after agent 3 confirms it with a note. -/
def sampleConfirmedOrder : Order :=
  { sampleOrder with
      status := OrderStatus.confirmed
      agent_notes := some "on my way" }

/-- Witness for C9: the sample agent confirms the sample order with a
note; all fields except status and agent notes are unchanged. -/
theorem updateOrderStatus_frame_witness :
    sampleConfirmedOrder.id = sampleOrder.id ∧
    sampleConfirmedOrder.product_id = sampleOrder.product_id ∧
    sampleConfirmedOrder.customer_id = sampleOrder.customer_id ∧
    sampleConfirmedOrder.agent_id = sampleOrder.agent_id ∧
    sampleConfirmedOrder.quantity = sampleOrder.quantity ∧
    sampleConfirmedOrder.unit_price = sampleOrder.unit_price ∧
    sampleConfirmedOrder.total_price = sampleOrder.total_price ∧
    sampleConfirmedOrder.commission = sampleOrder.commission ∧
    sampleConfirmedOrder.commission_rate = sampleOrder.commission_rate ∧
    sampleConfirmedOrder.delivery_address = sampleOrder.delivery_address ∧
    sampleConfirmedOrder.customer_notes = sampleOrder.customer_notes ∧
    sampleConfirmedOrder.status = .confirmed ∧
    (sampleConfirmedOrder.agent_notes = sampleOrder.agent_notes ∨
      ∃ n, (some "on my way" : Option String) = some n ∧
        sampleConfirmedOrder.agent_notes = some n) :=
  updateOrderStatus_frame sampleStore sampleAgent 100 .confirmed
    (some "on my way") sampleOrder sampleConfirmedOrder
    (replaceOrder sampleStore 100 sampleConfirmedOrder)
    (by rfl) (by rfl)

/-- C10: every successfully created order records the caller as its
customer — `createOrder` takes no customer parameter, so even an admin
caller becomes the order's customer. -/
theorem createOrder_customer_is_caller (s : Store) (user : User)
    (pid : Nat) (q : ℚ) (aid : Option Nat) (da cn : String)
    (newId : Nat) (iOk uOk : Bool) (o : Order) (s' : Store)
    (h : createOrder s user pid q aid da cn newId iOk uOk = (.ok o, s')) :
    o.customer_id = user.id := by
  simp only [createOrder] at h
  split at h
  · simp at h
  · split at h
    · simp at h
    · split at h
      · simp at h
      · split at h
        · simp at h
        · split at h
          · simp only [Prod.mk.injEq, Except.ok.injEq] at h
            obtain ⟨h1, _⟩ := h
            subst h1
            rfl
          · simp at h

/-- The order created by the sample admin call. -/
def sampleAdminOrder : Order :=
  { id := 103, product_id := 10, customer_id := 2, agent_id := none,
    quantity := 3, unit_price := 50, total_price := 50 * 3,
    commission := 0, commission_rate := 5, status := .booked,
    delivery_address := "Dhaka", customer_notes := "",
    agent_notes := none }

/-- Witness for C10: the admin (id 2) creates an order and becomes its
customer. -/
theorem createOrder_customer_is_caller_witness :
    sampleAdminOrder.customer_id = sampleAdmin.id :=
  createOrder_customer_is_caller sampleStore sampleAdmin 10 3 none
    "Dhaka" "" 103 true true sampleAdminOrder
    (setProductQuantity
      { sampleStore with orders := sampleStore.orders ++ [sampleAdminOrder] }
      10 (10 - 3))
    (by rfl)

end Krishoker
